import Mathlib

/-!
Verification of the stdio JSON-RPC-style server in `skills/test-mcp/server.py`.

The server reads lines from stdin, decodes each as JSON, dispatches on the
`method` field (`handle_request`), and prints at most one JSON response per
input line (`main`).  We embed the decoded JSON values shallowly and translate
`handle_request` and the body of `main` faithfully, including the Python
dynamic-typing failure modes (attribute errors on `.get`, type errors of the
`in` operator and of `+`), since the exception path of `main` depends on them.

JSON numbers are modelled as integers; none of the verified properties
depend on non-integral numerics.  Exception message texts follow CPython but
omit CPython quoting of type names (string literals here avoid quote
characters).
-/

/-- A decoded JSON value, as produced by `json.loads` on one input line.
Objects are the decoded dict entries (`json.loads` yields unique keys). -/
inductive JVal where
  | null
  | bool (b : Bool)
  | num (n : Int)
  | str (s : String)
  | arr (elems : List JVal)
  | obj (fields : List (String × JVal))

namespace JVal

/-- The Python type name of a value, as it appears in exception messages. -/
def typeName : JVal → String
  | .null => "NoneType"
  | .bool _ => "bool"
  | .num _ => "int"
  | .str _ => "str"
  | .arr _ => "list"
  | .obj _ => "dict"

/-- Python `v == "s"` for a string literal `s`: true exactly when `v` is that
string (no cross-type equality between `str` and other JSON types). -/
def isStr (v : JVal) (s : String) : Bool :=
  match v with
  | .str t => t == s
  | _ => false

/-- Python `v.get(k, d)`: dict lookup with default; any non-dict raises
`AttributeError`. -/
def pyGet (v : JVal) (k : String) (d : JVal) : Except String JVal :=
  match v with
  | .obj fields => .ok ((fields.lookup k).getD d)
  | _ => .error (v.typeName ++ " object has no attribute get")

/-- One step of Python substring search, used by `in` on strings. -/
def strHasSub (pat : List Char) : List Char → Bool
  | [] => pat.isEmpty
  | c :: rest => pat.isPrefixOf (c :: rest) || strHasSub pat rest

/-- Python `k in v` for a string key `k`: key membership on dicts, substring
on strings, element equality on lists, `TypeError` on the other types. -/
def pyContains (v : JVal) (k : String) : Except String Bool :=
  match v with
  | .obj fields => .ok (fields.lookup k).isSome
  | .str s => .ok (strHasSub k.toList s.toList)
  | .arr elems => .ok (elems.any (fun x => x.isStr k))
  | _ => .error ("argument of type " ++ v.typeName ++ " is not iterable")

/-- Python `v[k]` for a string key `k`: dict indexing (`KeyError` when the
key is absent); `TypeError` on every other type. -/
def pyIndex (v : JVal) (k : String) : Except String JVal :=
  match v with
  | .obj fields =>
    match fields.lookup k with
    | some x => .ok x
    | none => .error ("KeyError: " ++ k)
  | .str _ => .error "string indices must be integers"
  | .arr _ => .error "list indices must be integers or slices, not str"
  | _ => .error (v.typeName ++ " object is not subscriptable")

mutual

/-- Python `repr` of a JSON value (element form used inside containers). -/
def pyRepr : JVal → String
  | .null => "None"
  | .bool true => "True"
  | .bool false => "False"
  | .num n => toString n
  | .str s => "\x27" ++ s ++ "\x27"
  | .arr elems => "[" ++ pyReprList elems ++ "]"
  | .obj fields => "\x7b" ++ pyReprFields fields ++ "\x7d"

/-- Comma-joined `repr`s of list elements. -/
def pyReprList : List JVal → String
  | [] => ""
  | [x] => pyRepr x
  | x :: rest => pyRepr x ++ ", " ++ pyReprList rest

/-- Comma-joined `repr`s of dict entries. -/
def pyReprFields : List (String × JVal) → String
  | [] => ""
  | [(k, v)] => "\x27" ++ k ++ "\x27: " ++ pyRepr v
  | (k, v) :: rest => "\x27" ++ k ++ "\x27: " ++ pyRepr v ++ ", " ++ pyReprFields rest

end

/-- Python `str` of a value, as interpolated by an f-string. -/
def pyStr (v : JVal) : String :=
  match v with
  | .str s => s
  | _ => pyRepr v

/-- Python `a + b` on JSON values: numeric addition (bools count as 0/1),
string and list concatenation; every other combination raises `TypeError`. -/
def pyAdd (a b : JVal) : Except String JVal :=
  match a, b with
  | .num x, .num y => .ok (.num (x + y))
  | .num x, .bool y => .ok (.num (x + (if y then 1 else 0)))
  | .bool x, .num y => .ok (.num ((if x then 1 else 0) + y))
  | .bool x, .bool y => .ok (.num ((if x then 1 else 0) + (if y then 1 else 0)))
  | .str x, .str y => .ok (.str (x ++ y))
  | .arr x, .arr y => .ok (.arr (x ++ y))
  | _, _ =>
    .error ("unsupported operand type(s) for +: " ++ a.typeName ++ " and " ++ b.typeName)

end JVal

/-! ### The capability registry

The source hard-codes the `tools/list` payload; we name its two tool
descriptors so the registry (name, description, input schema) can be stated
about.  `tools_list_result_eq_registry` below checks that the mapped registry
is literally the payload built in `handle_request`. -/

/-- A tool descriptor as it appears in the `tools/list` payload. -/
structure Tool where
  name : String
  description : String
  inputSchema : JVal

/-- The `echo` tool declared in `handle_request` under `tools/list`. -/
def echoTool : Tool :=
  { name := "echo"
    description := "Echoes back the input text"
    inputSchema := .obj
      [("type", .str "object"),
       ("properties", .obj
         [("text", .obj
           [("type", .str "string"),
            ("description", .str "The text to echo")])]),
       ("required", .arr [.str "text"])] }

/-- The `add` tool declared in `handle_request` under `tools/list`. -/
def addTool : Tool :=
  { name := "add"
    description := "Adds two numbers together"
    inputSchema := .obj
      [("type", .str "object"),
       ("properties", .obj
         [("a", .obj
           [("type", .str "number"),
            ("description", .str "First number")]),
          ("b", .obj
           [("type", .str "number"),
            ("description", .str "Second number")])]),
       ("required", .arr [.str "a", .str "b"])] }

/-- The capability registry: the tools the server declares, in the order the
source lists them. -/
def registry : List Tool := [echoTool, addTool]

/-- Wire shape of one registered tool in the `tools/list` result. -/
def toolWire (t : Tool) : JVal :=
  .obj [("name", .str t.name), ("description", .str t.description),
        ("inputSchema", t.inputSchema)]

/-- The full `tools/list` result object. -/
def tools_list_result : JVal := .obj [("tools", .arr (registry.map toolWire))]

/-! ### The dispatcher: `handle_request` -/

/-- The static result of the `initialize` method. -/
def initializeResult : JVal :=
  .obj [("protocolVersion", .str "2024-11-05"),
        ("capabilities", .obj [("tools", .obj [])]),
        ("serverInfo", .obj [("name", .str "test-mcp"), ("version", .str "1.0.0")])]

/-- `handle_request(req)` from the source, translated clause by clause.
`Except` threads any Python exception the body can raise (each `.get` on a
non-dict, and `a + b` on incompatible operands); `.ok none` is the Python
`return None` of the `notifications/initialized` branch. -/
def handle_request (req : JVal) : Except String (Option JVal) :=
  match req.pyGet "method" (.str "") with
  | .error e => .error e
  | .ok method =>
    if method.isStr "initialize" then
      .ok (some initializeResult)
    else if method.isStr "notifications/initialized" then
      .ok none
    else if method.isStr "tools/list" then
      .ok (some tools_list_result)
    else if method.isStr "tools/call" then
      match req.pyGet "params" (.obj []) with
      | .error e => .error e
      | .ok params =>
        match params.pyGet "name" (.str "") with
        | .error e => .error e
        | .ok tool_name =>
          match params.pyGet "arguments" (.obj []) with
          | .error e => .error e
          | .ok args =>
            if tool_name.isStr "echo" then
              match args.pyGet "text" (.str "") with
              | .error e => .error e
              | .ok text =>
                .ok (some (.obj [("content", .arr
                  [.obj [("type", .str "text"),
                         ("text", .str ("Echo: " ++ JVal.pyStr text))]])]))
            else if tool_name.isStr "add" then
              match args.pyGet "a" (.num 0) with
              | .error e => .error e
              | .ok a =>
                match args.pyGet "b" (.num 0) with
                | .error e => .error e
                | .ok b =>
                  match JVal.pyAdd a b with
                  | .error e => .error e
                  | .ok result =>
                    .ok (some (.obj [("content", .arr
                      [.obj [("type", .str "text"),
                             ("text", .str ("Result: " ++ JVal.pyStr a ++ " + " ++
                               JVal.pyStr b ++ " = " ++ JVal.pyStr result))]])]))
            else
              .ok (some (.obj
                [("content", .arr
                  [.obj [("type", .str "text"),
                         ("text", .str ("Unknown tool: " ++ JVal.pyStr tool_name))]]),
                 ("isError", .bool true)]))
    else
      .ok (some (.obj []))

/-! ### The session loop: `main` -/

/-- The success response object printed by `main`. -/
def mkResponse (idv result : JVal) : JVal :=
  .obj [("jsonrpc", .str "2.0"), ("id", idv), ("result", result)]

/-- The error response object printed by the exception handler of `main`. -/
def mkErrorResponse (idv : JVal) (msg : String) : JVal :=
  .obj [("jsonrpc", .str "2.0"), ("id", idv),
        ("error", .obj [("code", .num (-32603)), ("message", .str msg)])]

/-- The `try` block of one `main` loop iteration after a successful decode:
run the handler, then emit a response only when `"id" in req` and the result
is not `None`.  `.ok (some r)` is a printed response, `.ok none` prints
nothing, `.error e` is an exception reaching the `except Exception` clause. -/
def tryBody (req : JVal) : Except String (Option JVal) :=
  match handle_request req with
  | .error e => .error e
  | .ok result =>
    match req.pyContains "id" with
    | .error e => .error e
    | .ok hasId =>
      if hasId then
        match result with
        | some r =>
          match req.pyIndex "id" with
          | .error e => .error e
          | .ok idv => .ok (some (mkResponse idv r))
        | none => .ok none
      else
        .ok none

/-- What one successfully decoded line leads to: a printed response, no
output, or an exception escaping `main` (killing the session). -/
inductive LineOutcome where
  | output (resp : JVal)
  | silent
  | crash (msg : String)

/-- Processing of one decoded request by the `main` loop body: the `try`
block, then the `except Exception as e` clause, which itself evaluates
`"id" in req` and `req.get("id")` and so can raise an uncaught exception. -/
def processDecoded (req : JVal) : LineOutcome :=
  match tryBody req with
  | .ok (some resp) => .output resp
  | .ok none => .silent
  | .error e =>
    match req.pyContains "id" with
    | .error e2 => .crash e2
    | .ok false => .silent
    | .ok true =>
      match req.pyGet "id" .null with
      | .error e3 => .crash e3
      | .ok idv => .output (mkErrorResponse idv e)

/-- One raw input line, abstracted at the decode boundary: either
`json.loads` raises `JSONDecodeError`, or it yields a value. -/
inductive Line where
  | malformed
  | decoded (v : JVal)

/-- One `main` loop iteration: a decode failure is swallowed
(`except json.JSONDecodeError: pass`); a decoded value is processed. -/
def processLine : Line → LineOutcome
  | .malformed => .silent
  | .decoded v => processDecoded v

/-- The whole session: the lines printed, and `some msg` when an uncaught
exception terminated `main` early (subsequent lines are then never read). -/
def runSession : List Line → List JVal × Option String
  | [] => ([], none)
  | l :: rest =>
    match processLine l with
    | .output r =>
      let (outs, c) := runSession rest
      (r :: outs, c)
    | .silent => runSession rest
    | .crash m => ([], some m)

/-- The `method` field as `handle_request` reads it: `req.get("method", "")`. -/
def reqMethod (fields : List (String × JVal)) : JVal :=
  (fields.lookup "method").getD (.str "")

/-- The value of a field of a response object (for stating which `id`,
`result`, `error` or `jsonrpc` a response carries). -/
def respField (r : JVal) (k : String) : Option JVal :=
  match r with
  | .obj fields => fields.lookup k
  | _ => none

/-- The tools array inside a discovery result. -/
def listedTools (r : JVal) : List JVal :=
  match r with
  | .obj fields =>
    match fields.lookup "tools" with
    | some (.arr ts) => ts
    | _ => []
  | _ => []

/-- The `name` field of one tool entry on the wire. -/
def wireName (t : JVal) : Option String :=
  match t with
  | .obj fields =>
    match fields.lookup "name" with
    | some (.str s) => some s
    | _ => none
  | _ => none

/-! ### Helper lemmas -/

/-- `isStr` recognises exactly the given string. -/
theorem isStr_eq_true_iff (v : JVal) (s : String) : v.isStr s = true ↔ v = .str s := by
  cases v <;> simp [JVal.isStr]

/-- `.get` on a dict returns the entry or the default. -/
theorem pyGet_obj (fields : List (String × JVal)) (k : String) (d : JVal) :
    (JVal.obj fields).pyGet k d = .ok ((fields.lookup k).getD d) := rfl

/-- `in` on a dict is key membership. -/
theorem pyContains_obj (fields : List (String × JVal)) (k : String) :
    (JVal.obj fields).pyContains k = .ok (fields.lookup k).isSome := rfl

/-- `handle_request` reads the method through `req.get("method", "")`. -/
theorem pyGet_method (fields : List (String × JVal)) :
    (JVal.obj fields).pyGet "method" (.str "") = .ok (reqMethod fields) := rfl

/-- On a dict request, `handle_request` answers `None` only in the
`notifications/initialized` branch. -/
theorem handle_request_obj_none (kvs : List (String × JVal))
    (h : handle_request (.obj kvs) = .ok none) :
    (reqMethod kvs).isStr "notifications/initialized" = true := by
  unfold handle_request at h
  rw [pyGet_method] at h
  by_cases h1 : (reqMethod kvs).isStr "initialize" = true
  · simp [h1] at h
  · by_cases h2 : (reqMethod kvs).isStr "notifications/initialized" = true
    · exact h2
    · exfalso
      by_cases h3 : (reqMethod kvs).isStr "tools/list" = true
      · simp [h1, h2, h3] at h
      · by_cases h4 : (reqMethod kvs).isStr "tools/call" = true
        · simp only [h1, h2, h3, h4, Bool.false_eq_true, if_false, if_true] at h
          split at h <;> try exact Except.noConfusion h
          split at h <;> try exact Except.noConfusion h
          split at h <;> try exact Except.noConfusion h
          split at h
          · split at h <;> simp_all
          · split at h
            · split at h <;> try exact Except.noConfusion h
              split at h <;> try exact Except.noConfusion h
              split at h <;> simp_all
            · simp_all
        · simp [h1, h2, h3, h4] at h

/-- On a dict request whose `id` key is present and whose method is not the
`notifications/initialized` notification, `main` prints exactly one response
and its `id` field is the request's `id` value (both in the success path and
in the handler-fault path). -/
theorem processDecoded_output_of_id (kvs : List (String × JVal)) (v : JVal)
    (hid : kvs.lookup "id" = some v)
    (hm : (reqMethod kvs).isStr "notifications/initialized" = false) :
    ∃ resp, processDecoded (.obj kvs) = .output resp ∧ respField resp "id" = some v := by
  cases hh : handle_request (.obj kvs) with
  | error e =>
    refine ⟨mkErrorResponse v e, ?_, rfl⟩
    unfold processDecoded tryBody
    rw [hh]
    simp [JVal.pyContains, JVal.pyGet, hid]
  | ok result =>
    cases result with
    | none =>
      rw [handle_request_obj_none kvs hh] at hm
      exact absurd hm (by simp)
    | some r =>
      refine ⟨mkResponse v r, ?_, rfl⟩
      unfold processDecoded tryBody
      rw [hh]
      simp [JVal.pyContains, JVal.pyIndex, hid]

/-- On a dict request, every response `main` prints carries
`jsonrpc = "2.0"` and exactly one of `result` / `error`. -/
theorem processDecoded_output_shape (req resp : JVal)
    (h : processDecoded req = .output resp) :
    respField resp "jsonrpc" = some (.str "2.0") ∧
    ((∃ r, respField resp "result" = some r ∧ respField resp "error" = none) ∨
     (∃ e, respField resp "error" = some e ∧ respField resp "result" = none)) := by
  unfold processDecoded at h
  split at h
  case _ resp' heq =>
    have hr : resp = resp' := by
      injection h with h
      exact h.symm
    subst hr
    unfold tryBody at heq
    split at heq <;> try exact Except.noConfusion heq
    split at heq <;> try exact Except.noConfusion heq
    split at heq
    · split at heq
      · split at heq <;> try exact Except.noConfusion heq
        injection heq with heq
        injection heq with heq
        subst heq
        exact ⟨rfl, Or.inl ⟨_, rfl, rfl⟩⟩
      · exact Option.noConfusion (Except.ok.inj heq)
    · exact Option.noConfusion (Except.ok.inj heq)
  case _ => exact LineOutcome.noConfusion h
  case _ e he =>
    split at h
    · exact LineOutcome.noConfusion h
    · exact LineOutcome.noConfusion h
    · split at h
      · exact LineOutcome.noConfusion h
      · injection h with h
        subst h
        exact ⟨rfl, Or.inr ⟨_, rfl, rfl⟩⟩

/-- `pyIndex` on a dict is lookup with a `KeyError` on absence. -/
theorem pyIndex_obj (fields : List (String × JVal)) (k : String) :
    (JVal.obj fields).pyIndex k =
      match fields.lookup k with
      | some x => .ok x
      | none => .error ("KeyError: " ++ k) := rfl

/-- On a dict request whose method is `tools/list`, the handler answers the
static tools listing. -/
theorem handle_request_tools_list (kvs : List (String × JVal))
    (hm : (reqMethod kvs).isStr "tools/list" = true) :
    handle_request (.obj kvs) = .ok (some tools_list_result) := by
  have hm2 : reqMethod kvs = .str "tools/list" := (isStr_eq_true_iff _ _).mp hm
  unfold handle_request
  rw [pyGet_method, hm2]
  rfl

/-- `handle_request` reads a dict request only through its `method` and
`params` entries. -/
theorem handle_request_ext (kvs1 kvs2 : List (String × JVal))
    (hm : kvs1.lookup "method" = kvs2.lookup "method")
    (hp : kvs1.lookup "params" = kvs2.lookup "params") :
    handle_request (.obj kvs1) = handle_request (.obj kvs2) := by
  unfold handle_request
  simp only [JVal.pyGet, hm, hp]

/-! ### Claims -/

/-- C1 (counterexample): a decoded request that does contain the key `id`
but whose method is the initialized notification produces zero responses,
refuting the claim that every decoded line containing `id` produces exactly
one response. -/
theorem c1_counterexample :
    (JVal.obj [("id", .num 1), ("method", .str "notifications/initialized")]).pyContains "id"
      = .ok true ∧
    processDecoded (.obj [("id", .num 1), ("method", .str "notifications/initialized")])
      = .silent := ⟨rfl, rfl⟩

/-- C1 (amended): for every decoded request object containing the key `id`
whose method is not the `notifications/initialized` notification, processing
produces exactly one response, and that response echoes the request's `id`
value. -/
theorem c1_response_with_same_id (kvs : List (String × JVal)) (v : JVal)
    (hid : kvs.lookup "id" = some v)
    (hm : (reqMethod kvs).isStr "notifications/initialized" = false) :
    ∃ resp, processDecoded (.obj kvs) = .output resp ∧ respField resp "id" = some v :=
  processDecoded_output_of_id kvs v hid hm

/-- C1 witness: the amended claim at a concrete `initialize` request. -/
theorem c1_witness :
    ∃ resp, processDecoded (.obj [("id", .num 1), ("method", .str "initialize")])
      = .output resp ∧ respField resp "id" = some (.num 1) :=
  c1_response_with_same_id _ _ rfl rfl

/-- C2: a decoded request object without the key `id` never produces a
response, whether the handler succeeds, returns `None`, or faults. -/
theorem c2_no_id_no_response (kvs : List (String × JVal))
    (hid : kvs.lookup "id" = none) :
    processDecoded (.obj kvs) = .silent := by
  unfold processDecoded tryBody
  cases hh : handle_request (.obj kvs) with
  | error e => simp [JVal.pyContains, hid]
  | ok result => cases result <;> simp [JVal.pyContains, hid]

/-- C2 witness: a recognized method without `id` stays silent. -/
theorem c2_witness :
    processDecoded (.obj [("method", .str "initialize")]) = .silent :=
  c2_no_id_no_response _ rfl

/-- C3: a request whose method is the `notifications/initialized`
notification never produces a response, even when it carries an `id`. -/
theorem c3_initialized_never_replies (kvs : List (String × JVal))
    (hm : (reqMethod kvs).isStr "notifications/initialized" = true) :
    processDecoded (.obj kvs) = .silent := by
  have hm2 : reqMethod kvs = .str "notifications/initialized" := (isStr_eq_true_iff _ _).mp hm
  have hh : handle_request (.obj kvs) = .ok none := by
    unfold handle_request
    rw [pyGet_method, hm2]
    rfl
  unfold processDecoded tryBody
  rw [hh, pyContains_obj]
  cases (kvs.lookup "id").isSome <;> rfl

/-- C3 witness: the initialized notification carrying `id = 7` is silent. -/
theorem c3_witness :
    processDecoded (.obj [("id", .num 7), ("method", .str "notifications/initialized")])
      = .silent :=
  c3_initialized_never_replies _ rfl

/-- C4 (code bug): the input line `5` is well-formed JSON, so the decode
guard does not fire; `handle_request` then raises `AttributeError`, and the
`except` clause itself raises an uncaught `TypeError` evaluating
`"id" in req` on an int, killing the session: the subsequent `initialize`
request is never read.  This contradicts the claim that no single line is
fatal. -/
theorem c4_line_can_be_fatal :
    processDecoded (.num 5) = .crash "argument of type int is not iterable" ∧
    runSession [.decoded (.num 5), .decoded (.obj [("id", .num 1), ("method", .str "initialize")])]
      = ([], some "argument of type int is not iterable") := ⟨rfl, rfl⟩

/-- C5: when the handler faults on a decoded request object, an error
response with code `-32603` and the fault's description is emitted exactly
when the request carries the key `id`; otherwise the fault is discarded
silently. -/
theorem c5_fault_reply_iff_id (kvs : List (String × JVal)) (e : String)
    (hf : handle_request (.obj kvs) = .error e) :
    ((kvs.lookup "id").isSome = true →
      processDecoded (.obj kvs)
        = .output (mkErrorResponse ((kvs.lookup "id").getD .null) e)) ∧
    ((kvs.lookup "id").isSome = false → processDecoded (.obj kvs) = .silent) := by
  unfold processDecoded tryBody
  rw [hf]
  constructor <;> intro h
  · simp [JVal.pyContains, JVal.pyGet, h]
  · simp [JVal.pyContains, h]

/-- C5 witness: `tools/call` with a non-dict `params` faults; with `id = 1`
present the fault surfaces as a `-32603` error response. -/
theorem c5_witness :
    processDecoded (.obj [("id", .num 1), ("method", .str "tools/call"), ("params", .num 3)])
      = .output (mkErrorResponse (.num 1) "int object has no attribute get") :=
  (c5_fault_reply_iff_id
    [("id", .num 1), ("method", .str "tools/call"), ("params", .num 3)]
    "int object has no attribute get" rfl).1 rfl

/-- C6: a `tools/call` request with `id` naming a tool outside the registry
is answered with a success-shaped `result` whose payload carries
`isError: true` and a text content item naming the requested tool. -/
theorem c6_unknown_tool_flagged (kvs pkvs : List (String × JVal)) (nm : String) (idv : JVal)
    (hm : reqMethod kvs = .str "tools/call")
    (hp : (kvs.lookup "params").getD (.obj []) = .obj pkvs)
    (hn : (pkvs.lookup "name").getD (.str "") = .str nm)
    (hreg : nm ∉ registry.map Tool.name)
    (hid : kvs.lookup "id" = some idv) :
    processDecoded (.obj kvs)
      = .output (mkResponse idv (.obj
          [("content", .arr [.obj [("type", .str "text"),
            ("text", .str ("Unknown tool: " ++ nm))]]),
           ("isError", .bool true)])) := by
  have hts : registry.map Tool.name = ["echo", "add"] := rfl
  rw [hts] at hreg
  simp only [List.mem_cons, List.not_mem_nil, or_false, not_or] at hreg
  have e1 : (nm == "echo") = false := beq_eq_false_iff_ne.mpr hreg.1
  have e2 : (nm == "add") = false := beq_eq_false_iff_ne.mpr hreg.2
  have hh : handle_request (.obj kvs)
      = .ok (some (.obj
          [("content", .arr [.obj [("type", .str "text"),
            ("text", .str ("Unknown tool: " ++ nm))]]),
           ("isError", .bool true)])) := by
    unfold handle_request
    rw [pyGet_method, hm]
    simp [JVal.isStr, pyGet_obj, hp, hn, e1, e2, JVal.pyStr]
  unfold processDecoded tryBody
  rw [hh, pyContains_obj, hid]
  simp [pyIndex_obj, hid]

/-- C6 witness: calling the unregistered tool `bogus` with `id = 3`. -/
theorem c6_witness :
    processDecoded (.obj [("id", .num 3), ("method", .str "tools/call"),
      ("params", .obj [("name", .str "bogus"), ("arguments", .obj [])])])
      = .output (mkResponse (.num 3) (.obj
          [("content", .arr [.obj [("type", .str "text"),
            ("text", .str "Unknown tool: bogus")]]),
           ("isError", .bool true)])) :=
  c6_unknown_tool_flagged _ _ "bogus" _ rfl rfl rfl (by decide) rfl

/-- C7 (counterexample): a request whose `id` key holds the falsy value `0`
still receives no response when the method is the initialized notification,
refuting the unconditional claim that such a request receives a response. -/
theorem c7_counterexample :
    (JVal.obj [("id", .num 0), ("method", .str "notifications/initialized")]).pyContains "id"
      = .ok true ∧
    processDecoded (.obj [("id", .num 0), ("method", .str "notifications/initialized")])
      = .silent := ⟨rfl, rfl⟩

/-- C7 (amended): a request whose `id` key exists with a falsy value
(`0` or the empty string) is treated as present — `"id" in req` is true —
and, whenever the method is not the `notifications/initialized` notification,
it receives a response echoing that exact `id` value. -/
theorem c7_falsy_id_is_present (kvs : List (String × JVal)) (v : JVal)
    (hid : kvs.lookup "id" = some v)
    (_hfalsy : v = .num 0 ∨ v = .str "")
    (hm : (reqMethod kvs).isStr "notifications/initialized" = false) :
    (JVal.obj kvs).pyContains "id" = .ok true ∧
    ∃ resp, processDecoded (.obj kvs) = .output resp ∧ respField resp "id" = some v := by
  refine ⟨?_, processDecoded_output_of_id kvs v hid hm⟩
  rw [pyContains_obj, hid]
  rfl

/-- C7 witness: `id = 0` on an `initialize` request is echoed back. -/
theorem c7_witness :
    (JVal.obj [("id", .num 0), ("method", .str "initialize")]).pyContains "id" = .ok true ∧
    ∃ resp, processDecoded (.obj [("id", .num 0), ("method", .str "initialize")])
      = .output resp ∧ respField resp "id" = some (.num 0) :=
  c7_falsy_id_is_present _ _ rfl (Or.inl rfl) rfl

/-- C8: a request with `id` whose method is none of the four recognized
methods is answered with an empty result object, never a protocol-level
error. -/
theorem c8_unrecognized_method_empty_result (kvs : List (String × JVal)) (idv : JVal)
    (hid : kvs.lookup "id" = some idv)
    (h1 : (reqMethod kvs).isStr "initialize" = false)
    (h2 : (reqMethod kvs).isStr "notifications/initialized" = false)
    (h3 : (reqMethod kvs).isStr "tools/list" = false)
    (h4 : (reqMethod kvs).isStr "tools/call" = false) :
    processDecoded (.obj kvs) = .output (mkResponse idv (.obj [])) := by
  have hh : handle_request (.obj kvs) = .ok (some (.obj [])) := by
    unfold handle_request
    rw [pyGet_method]
    simp [h1, h2, h3, h4]
  unfold processDecoded tryBody
  rw [hh, pyContains_obj, hid]
  simp [pyIndex_obj, hid]

/-- C8 witness: the unrecognized method `whatever` with `id = 9`. -/
theorem c8_witness :
    processDecoded (.obj [("id", .num 9), ("method", .str "whatever")])
      = .output (mkResponse (.num 9) (.obj [])) :=
  c8_unrecognized_method_empty_result _ _ rfl rfl rfl rfl rfl

/-- C9: the discovery result lists exactly the registered tools, in
registration order, with no duplicate names, and any two `tools/list`
requests are answered identically. -/
theorem c9_discovery_lists_registry (kvs : List (String × JVal))
    (hm : (reqMethod kvs).isStr "tools/list" = true) :
    handle_request (.obj kvs) = .ok (some tools_list_result) ∧
    listedTools tools_list_result = registry.map toolWire ∧
    (listedTools tools_list_result).filterMap wireName = registry.map Tool.name ∧
    (registry.map Tool.name).Nodup ∧
    (∀ kvs2 : List (String × JVal), (reqMethod kvs2).isStr "tools/list" = true →
      handle_request (.obj kvs2) = handle_request (.obj kvs)) := by
  refine ⟨handle_request_tools_list kvs hm, rfl, rfl, by decide, ?_⟩
  intro kvs2 hm2
  rw [handle_request_tools_list kvs2 hm2, handle_request_tools_list kvs hm]

/-- C9 witness: the discovery claim at a concrete `tools/list` request. -/
theorem c9_witness :
    handle_request (.obj [("id", .num 5), ("method", .str "tools/list")])
      = .ok (some tools_list_result) ∧
    listedTools tools_list_result = registry.map toolWire ∧
    (listedTools tools_list_result).filterMap wireName = registry.map Tool.name ∧
    (registry.map Tool.name).Nodup ∧
    (∀ kvs2 : List (String × JVal), (reqMethod kvs2).isStr "tools/list" = true →
      handle_request (.obj kvs2)
        = handle_request (.obj [("id", .num 5), ("method", .str "tools/list")])) :=
  c9_discovery_lists_registry [("id", .num 5), ("method", .str "tools/list")] rfl

/-- C10: processing a decoded request object does not depend on its
`jsonrpc` entry — two requests agreeing on every other key are processed
identically — and every emitted response carries the constant
`jsonrpc = "2.0"`. -/
theorem c10_jsonrpc_noninterference (kvs1 kvs2 : List (String × JVal))
    (h : ∀ k : String, k ≠ "jsonrpc" → kvs1.lookup k = kvs2.lookup k) :
    processDecoded (.obj kvs1) = processDecoded (.obj kvs2) ∧
    (∀ resp, processDecoded (.obj kvs1) = .output resp →
      respField resp "jsonrpc" = some (.str "2.0")) := by
  have hm := h "method" (by decide)
  have hp := h "params" (by decide)
  have hi := h "id" (by decide)
  refine ⟨?_, fun resp hr => (processDecoded_output_shape _ _ hr).1⟩
  unfold processDecoded tryBody
  rw [handle_request_ext kvs1 kvs2 hm hp]
  simp only [pyContains_obj, pyIndex_obj, JVal.pyGet, hi]

/-- C10 witness: a spoofed `jsonrpc = "1.0"` request and the same request
without the field are processed identically. -/
theorem c10_witness :
    processDecoded (.obj [("jsonrpc", .str "1.0"), ("id", .num 4), ("method", .str "initialize")])
      = processDecoded (.obj [("id", .num 4), ("method", .str "initialize")]) :=
  (c10_jsonrpc_noninterference
    [("jsonrpc", .str "1.0"), ("id", .num 4), ("method", .str "initialize")]
    [("id", .num 4), ("method", .str "initialize")]
    (fun k hk => by
      have hb : (k == "jsonrpc") = false := beq_eq_false_iff_ne.mpr hk
      simp [List.lookup, hb])).1
